import Mathlib

/-!
Verification of the `reusable_lexer` repository (src/lib.rs and src/main.rs).

The source is a small pull-based lexer over a `&str`.  We embed it shallowly:
the source text is a `List Char` (a valid sequence of Unicode scalar values,
exactly what a Rust `&str` decodes to), byte offsets are `Nat`, and the
`Chars` iterator of the source is the list of not-yet-fetched characters.
Loops in the source are embedded as fuel-indexed structural recursions
returning `Option` / a result sum, so that every definition is executable and
kernel-reducible; a `none` from a loop runner means the fuel ran out, and the
wrappers pass fuel that provably dominates every terminating run, so a `none`
from a wrapper identifies a genuinely diverging loop (this matters for
`trim_comment`, which the source code really can spin forever in).
-/

/-- Models Rust `char::is_whitespace` (the Unicode White_Space property).
The White_Space set is exactly the 25 code points listed here, so this
definition is exact on all of Unicode. -/
def rustIsWhitespace (c : Char) : Bool :=
  let n := c.toNat
  n = 0x20 || n = 0x09 || n = 0x0A || n = 0x0B || n = 0x0C || n = 0x0D ||
  n = 0x85 || n = 0xA0 || n = 0x1680 || (0x2000 ≤ n && n ≤ 0x200A) ||
  n = 0x2028 || n = 0x2029 || n = 0x202F || n = 0x205F || n = 0x3000

/-- Models Rust `char::is_alphabetic` (Unicode Alphabetic).  Exact on every
code point below 0x100 (ASCII letters plus U+00AA, U+00B5, U+00BA,
U+00C0..U+00D6, U+00D8..U+00F6, U+00F8..U+00FF); code points at or above
0x100 are approximated as false — every input evaluated below stays under
0x100, and no universally quantified theorem below depends on the value of
this predicate at any particular character. -/
def rustIsAlphabetic (c : Char) : Bool :=
  let n := c.toNat
  (0x41 ≤ n && n ≤ 0x5A) || (0x61 ≤ n && n ≤ 0x7A) ||
  n = 0xAA || n = 0xB5 || n = 0xBA ||
  (0xC0 ≤ n && n ≤ 0xD6) || (0xD8 ≤ n && n ≤ 0xF6) || (0xF8 ≤ n && n ≤ 0xFF)

/-- Models Rust `char::is_numeric` (Unicode categories Nd, Nl, No).  Exact on
every code point below 0x100 (ASCII digits plus the superscripts U+00B2,
U+00B3, U+00B9 and the fractions U+00BC..U+00BE); approximated as false at
or above 0x100, as for `rustIsAlphabetic`. -/
def rustIsNumeric (c : Char) : Bool :=
  let n := c.toNat
  (0x30 ≤ n && n ≤ 0x39) || n = 0xB2 || n = 0xB3 || n = 0xB9 ||
  (0xBC ≤ n && n ≤ 0xBE)

/-- Models Rust `char::is_alphanumeric`, which is defined in std as
`is_alphabetic() || is_numeric()`. -/
def rustIsAlphanumeric (c : Char) : Bool :=
  rustIsAlphabetic c || rustIsNumeric c

/-- Drops the characters covering exactly the first `n` bytes of the UTF-8
encoding of `cs`; `none` when `n` is not a character boundary (or past the
end).  Building block for Rust string slicing, which panics in those cases. -/
def utf8DropChars : List Char → Nat → Option (List Char)
  | cs, 0 => some cs
  | [], _ + 1 => none
  | c :: rest, n + 1 =>
    if c.utf8Size ≤ n + 1 then utf8DropChars rest (n + 1 - c.utf8Size) else none

/-- Takes the characters covering exactly the first `n` bytes of the UTF-8
encoding of `cs`; `none` when `n` is not a character boundary. -/
def utf8TakeChars : List Char → Nat → Option (List Char)
  | _, 0 => some []
  | [], _ + 1 => none
  | c :: rest, n + 1 =>
    if c.utf8Size ≤ n + 1 then
      (utf8TakeChars rest (n + 1 - c.utf8Size)).map (fun l => c :: l)
    else none

/-- Models the Rust string slice `&source[a..b]`: the characters whose UTF-8
encoding occupies bytes `a..b` of `source`.  `none` models the Rust panic
(slice start after end, or either index not on a character boundary or out
of range). -/
def sliceStr (cs : List Char) (a b : Nat) : Option (List Char) :=
  if a ≤ b then (utf8DropChars cs a).bind (fun rest => utf8TakeChars rest (b - a))
  else none

/-- Is byte offset `n` a UTF-8 scalar-value boundary of `cs` (Rust
`str::is_char_boundary`, restricted to offsets at most the byte length)? -/
def isUtf8Boundary (cs : List Char) (n : Nat) : Bool :=
  (utf8DropChars cs n).isSome

/-- Models Rust `str::parse::<i32>()`: an optional sign, then a nonempty run
of ASCII decimal digits, rejected (`none`) when empty, when any character is
not an ASCII digit, or when the value does not fit in a 32-bit signed
integer.  Checking the final value against the i32 range is equivalent to
Rust's per-step overflow checks because the accumulated magnitude is
monotone in the digits consumed. -/
def parseI32 (cs : List Char) : Option Int :=
  let signDigits : Int × List Char :=
    match cs with
    | '+' :: rest => (1, rest)
    | '-' :: rest => (-1, rest)
    | _ => (1, cs)
  let sign := signDigits.1
  let digits := signDigits.2
  if digits = [] then none
  else if digits.all (fun c => 0x30 ≤ c.toNat && c.toNat ≤ 0x39) then
    let n : Nat := digits.foldl (fun acc c => 10 * acc + (c.toNat - 0x30)) 0
    let v : Int := sign * (n : Int)
    if -(2 ^ 31) ≤ v ∧ v ≤ 2 ^ 31 - 1 then some v else none
  else none

/-- Mathematical operations, from `enum Op` in src/lib.rs. -/
inductive Op where
  | Plus
  | Minus
  | Multiply
  | Divide
  | Modulo
  | Equal
  | NotEqual
  | Greater
  | GreaterOrEqual
  | Less
  | LessOrEqual
  deriving DecidableEq

/-- The different kinds of token, from `enum TokenKind` in src/lib.rs.  The
`Ident` payload is the `&str` slice, embedded as its character list; `Num`
carries the parsed `i32` value as an `Int` (always within i32 range). -/
inductive TokenKind where
  | Opr (op : Op)
  | Ident (s : List Char)
  | Num (n : Int)
  | OpeningBracket
  | ClosingBracket
  deriving DecidableEq

/-- A lexical token, from `struct Token` in src/lib.rs: a kind and a
`(row, column)` position. -/
structure Token where
  kind : TokenKind
  position : Nat × Nat
  deriving DecidableEq

/-- The lexer state, from `struct Lexer` in src/lib.rs.  `source` is the full
source text; `prev` is the current lookahead character (the Rust field of
the same name); `chars` embeds the `Chars` iterator as the list of
characters not yet fetched; `pos` is the `usize` byte position; `row` and
`col` are the position counters. -/
structure Lexer where
  source : List Char
  prev : Char
  chars : List Char
  pos : Nat
  row : Nat
  col : Nat
  deriving DecidableEq

/-- `Lexer::new`: fetch the first character as the lookahead (the NUL
sentinel `'\x00'` when the source is empty), start at byte 0, row 1,
column 1. -/
def Lexer.new (source : List Char) : Lexer :=
  { source := source
    prev := source.headD '\x00'
    chars := source.tail
    pos := 0
    row := 1
    col := 1 }

/-- `Lexer::pos(&self) -> (usize, usize)`, the `(row, col)` snapshot (named
`position` here because `pos` is the byte-offset field). -/
def Lexer.position (s : Lexer) : Nat × Nat :=
  (s.row, s.col)

/-- `Lexer::is_over`: is the lookahead the NUL sentinel? -/
def Lexer.is_over (s : Lexer) : Bool :=
  s.prev = '\x00'

/-- `Lexer::next_char`: fetch the next character from the iterator; on
success it becomes the lookahead, the byte position grows by the fetched
character's UTF-8 width, the column grows by one, and if the fetched
character is a line feed the column resets to 0 and the row grows by one.
When the iterator is exhausted only the lookahead changes, to the NUL
sentinel. -/
def Lexer.next_char (s : Lexer) : Option Char × Lexer :=
  match s.chars with
  | ch :: rest =>
    (some ch,
      { s with
        prev := ch
        chars := rest
        pos := s.pos + ch.utf8Size
        row := if ch = '\n' then s.row + 1 else s.row
        col := if ch = '\n' then 0 else s.col + 1 })
  | [] => (none, { s with prev := '\x00' })

/-- `Lexer::peek`: the next character after the lookahead, without
consuming. -/
def Lexer.peek (s : Lexer) : Option Char :=
  s.chars.head?

/-- Fuel-indexed runner for the loop of `Lexer::trim_whitespace`
(`while self.prev.is_whitespace() { self.next_char(); }`).  `none` means the
fuel ran out. -/
def wsLoopF : Nat → Lexer → Option Lexer
  | 0, _ => none
  | fuel + 1, s =>
    if rustIsWhitespace s.prev then wsLoopF fuel (s.next_char).2 else some s

/-- `Lexer::trim_whitespace`.  The fuel `chars.length + 2` dominates every
run of the loop: each iteration either fetches a character or turns the
lookahead into the (non-whitespace) NUL sentinel, so the loop always stops
within that many iterations. -/
def Lexer.trim_whitespace (s : Lexer) : Option Lexer :=
  wsLoopF (s.chars.length + 2) s

/-- Fuel-indexed runner for the loop of `Lexer::trim_ident`
(`while self.prev.is_alphanumeric() || self.prev == '_' { self.next_char(); }`). -/
def identLoopF : Nat → Lexer → Option Lexer
  | 0, _ => none
  | fuel + 1, s =>
    if rustIsAlphanumeric s.prev ∨ s.prev = '_' then identLoopF fuel (s.next_char).2
    else some s

/-- `Lexer::trim_ident`: remember the byte position, run the loop, then
slice the source between the remembered and the final byte positions.  The
inner `Option` is the slice: `none` models the Rust panic when an index is
not a character boundary.  The outer `Option` is loop fuel (never exhausted,
as for `trim_whitespace`). -/
def Lexer.trim_ident (s : Lexer) : Option (Option (List Char) × Lexer) :=
  (identLoopF (s.chars.length + 2) s).map
    (fun s2 => (sliceStr s.source s.pos s2.pos, s2))

/-- Fuel-indexed runner for the loop of `Lexer::trim_number`
(`while self.prev.is_numeric() { self.next_char(); }`). -/
def numberLoopF : Nat → Lexer → Option Lexer
  | 0, _ => none
  | fuel + 1, s =>
    if rustIsNumeric s.prev then numberLoopF fuel (s.next_char).2 else some s

/-- `Lexer::trim_number`, shaped exactly like `trim_ident`. -/
def Lexer.trim_number (s : Lexer) : Option (Option (List Char) × Lexer) :=
  (numberLoopF (s.chars.length + 2) s).map
    (fun s2 => (sliceStr s.source s.pos s2.pos, s2))

/-- Fuel-indexed runner for the loop of `Lexer::trim_comment`
(`while self.prev != '\n' { self.next_char(); }`).  Unlike the other loops
this one has no end-of-input exit: once the lookahead is the NUL sentinel it
stays the NUL sentinel, which differs from a line feed, so the loop repeats
the same state forever.  `none` from fuel `chars.length + 2` therefore
identifies exactly the inputs on which the source code loops forever. -/
def commentLoopF : Nat → Lexer → Option Lexer
  | 0, _ => none
  | fuel + 1, s =>
    if s.prev = '\n' then some s else commentLoopF fuel (s.next_char).2

/-- `Lexer::trim_comment`.  `none` means the loop diverges (no line feed at
or after the current lookahead). -/
def Lexer.trim_comment (s : Lexer) : Option Lexer :=
  commentLoopF (s.chars.length + 2) s

/-- Does `c` fall in the identifier-start match arm
`'a'..='z' | 'A'..='Z' | '_'` of the `Iterator::next` dispatch? -/
def isIdentStart (c : Char) : Bool :=
  (0x61 ≤ c.toNat && c.toNat ≤ 0x7A) || (0x41 ≤ c.toNat && c.toNat ≤ 0x5A) ||
  c = '_'

/-- Does `c` fall in the digit match arm `'0'..='9'` of the dispatch? -/
def isAsciiDigit (c : Char) : Bool :=
  0x30 ≤ c.toNat && c.toNat ≤ 0x39

/-- Result of one pull of the token iterator.  `tok` and `exhausted` carry
the post-pull lexer state (`Some(token)` / `None` in Rust); `panicked`
models a Rust panic from string slicing; `diverged` models the infinite loop
in `trim_comment`; `fuelOut` is the embedding's fuel marker (unreachable
under the fuel the wrappers pass). -/
inductive PullResult where
  | tok (t : Token) (s : Lexer)
  | exhausted (s : Lexer)
  | panicked
  | diverged
  | fuelOut
  deriving DecidableEq

/-- The token of a pull result, when one was produced. -/
def PullResult.token? : PullResult → Option Token
  | .tok t _ => some t
  | _ => none

/-- The token-recognition dispatch of `<Lexer as Iterator>::next` from
src/lib.rs, applied to the whitespace-trimmed state `s1`: read the position,
match on the lookahead character, and either produce a token, retry after a
line comment (the `continue`, passed in as `retry`), or return exhaustion.
The source caches `let position = self.pos()` and `let s2` intermediates;
the branches here build new states instead of mutating, so those reads are
inlined without changing meaning. -/
def lexArm (retry : Lexer → PullResult) (s1 : Lexer) : PullResult :=
  if isIdentStart s1.prev then
    match s1.trim_ident with
    | none => .fuelOut
    | some (none, _) => .panicked
    | some (some str, s2) => .tok ⟨.Ident str, s1.position⟩ s2
  else if isAsciiDigit s1.prev then
    match s1.trim_number with
    | none => .fuelOut
    | some (none, _) => .panicked
    | some (some str, s2) => .tok ⟨.Num ((parseI32 str).getD 0), s1.position⟩ s2
  else if s1.prev = '+' then .tok ⟨.Opr .Plus, s1.position⟩ (s1.next_char).2
  else if s1.prev = '-' then .tok ⟨.Opr .Minus, s1.position⟩ (s1.next_char).2
  else if s1.prev = '*' then .tok ⟨.Opr .Multiply, s1.position⟩ (s1.next_char).2
  else if s1.prev = '/' then
    if ((s1.next_char).2).prev = '/' then
      match ((s1.next_char).2).trim_comment with
      | none => .diverged
      | some s3 => retry s3
    else .tok ⟨.Opr .Divide, s1.position⟩ (s1.next_char).2
  else if s1.prev = '%' then .tok ⟨.Opr .Modulo, s1.position⟩ (s1.next_char).2
  else if s1.prev = '=' then .tok ⟨.Opr .Equal, s1.position⟩ (s1.next_char).2
  else if s1.prev = '>' then
    if ((s1.next_char).2).prev = '=' then
      .tok ⟨.Opr .GreaterOrEqual, s1.position⟩ (((s1.next_char).2).next_char).2
    else .tok ⟨.Opr .Greater, s1.position⟩ (s1.next_char).2
  else if s1.prev = '<' then
    if ((s1.next_char).2).prev = '=' then
      .tok ⟨.Opr .LessOrEqual, s1.position⟩ (((s1.next_char).2).next_char).2
    else if ((s1.next_char).2).prev = '>' then
      .tok ⟨.Opr .NotEqual, s1.position⟩ (((s1.next_char).2).next_char).2
    else .tok ⟨.Opr .Less, s1.position⟩ (s1.next_char).2
  else if s1.prev = '(' then .tok ⟨.OpeningBracket, s1.position⟩ (s1.next_char).2
  else if s1.prev = ')' then .tok ⟨.ClosingBracket, s1.position⟩ (s1.next_char).2
  else .exhausted s1

/-- One iteration of the dispatch loop of `<Lexer as Iterator>::next` from
src/lib.rs: trim whitespace, then run the token-recognition dispatch on the
trimmed state. -/
def lexDispatch (retry : Lexer → PullResult) (s : Lexer) : PullResult :=
  match s.trim_whitespace with
  | none => .fuelOut
  | some s1 => lexArm retry s1

/-- Fuel-indexed embedding of the whole `loop` of `<Lexer as Iterator>::next`
from src/lib.rs: iterate `lexDispatch`, spending one unit of fuel per
comment retry. -/
def lexNextF : Nat → Lexer → PullResult
  | 0, _ => .fuelOut
  | fuel + 1, s => lexDispatch (lexNextF fuel) s

/-- One pull of the iterator.  Every retry of the outer loop first consumes
the two slashes of a line comment, so `chars.length + 2` outer iterations
always suffice. -/
def Lexer.next (s : Lexer) : PullResult :=
  lexNextF (s.chars.length + 2) s

/-- One step of the consumer loop: when the pull produced a token, keep it
and continue from the returned state; otherwise stop. -/
def lexConsTokens (r : PullResult) (rest : Lexer → List Token) : List Token :=
  match r with
  | .tok t s2 => t :: rest s2
  | _ => []

/-- Drains the iterator into the list of produced tokens, as the consumer
loop in src/main.rs does (`while let Some(tok) = lexer.next()`), stopping at
the first pull that produces no token (exhaustion, panic, or divergence). -/
def lexTokensF : Nat → Lexer → List Token
  | 0, _ => []
  | fuel + 1, s => lexConsTokens s.next (lexTokensF fuel)

/-- The token sequence of a source text.  A successful pull always consumes
at least one character (or flips the lookahead to the sentinel, which can
happen at most once), so `source.length + 1` pulls suffice. -/
def lexAll (source : List Char) : List Token :=
  lexTokensF (source.length + 1) (Lexer.new source)

namespace Main

/-! Transcription of the second copy of the scanner, from src/main.rs.  The
data declarations there (`Op`, `TokenKind`, `Token`, `Lexer`) are
field-for-field and variant-for-variant identical to the ones in src/lib.rs,
so the shared types above embed both; every function of the main.rs `impl`
blocks is transcribed afresh below from the main.rs text. -/

/-- `Lexer::new` from src/main.rs (`EOF` there is the constant `'\0'`). -/
def new (source : List Char) : Lexer :=
  { source := source
    prev := source.headD '\x00'
    chars := source.tail
    pos := 0
    row := 1
    col := 1 }

/-- `Lexer::pos` from src/main.rs. -/
def position (s : Lexer) : Nat × Nat :=
  (s.row, s.col)

/-- `Lexer::is_over` from src/main.rs. -/
def is_over (s : Lexer) : Bool :=
  s.prev = '\x00'

/-- `Lexer::next_char` from src/main.rs. -/
def next_char (s : Lexer) : Option Char × Lexer :=
  match s.chars with
  | ch :: rest =>
    (some ch,
      { s with
        prev := ch
        chars := rest
        pos := s.pos + ch.utf8Size
        row := if ch = '\n' then s.row + 1 else s.row
        col := if ch = '\n' then 0 else s.col + 1 })
  | [] => (none, { s with prev := '\x00' })

/-- `Lexer::peek` from src/main.rs. -/
def peek (s : Lexer) : Option Char :=
  s.chars.head?

/-- `Lexer::unicode_escape` from src/main.rs: dead code under the token
grammar; the `'u'` and `'x'` arms are `todo!()` stubs that abort, embedded
as `none`. -/
def unicode_escape (ch : Char) : Option Char :=
  match ch with
  | 'n' => some '\n'
  | 't' => some '\t'
  | 'r' => some '\r'
  | 'u' => none
  | 'x' => none
  | other => some other

/-- Loop runner for `Lexer::trim_whitespace` from src/main.rs. -/
def wsLoopF : Nat → Lexer → Option Lexer
  | 0, _ => none
  | fuel + 1, s =>
    if rustIsWhitespace s.prev then wsLoopF fuel (Main.next_char s).2 else some s

/-- `Lexer::trim_whitespace` from src/main.rs. -/
def trim_whitespace (s : Lexer) : Option Lexer :=
  Main.wsLoopF (s.chars.length + 2) s

/-- Loop runner for `Lexer::trim_ident` from src/main.rs. -/
def identLoopF : Nat → Lexer → Option Lexer
  | 0, _ => none
  | fuel + 1, s =>
    if rustIsAlphanumeric s.prev ∨ s.prev = '_' then
      Main.identLoopF fuel (Main.next_char s).2
    else some s

/-- `Lexer::trim_ident` from src/main.rs. -/
def trim_ident (s : Lexer) : Option (Option (List Char) × Lexer) :=
  (Main.identLoopF (s.chars.length + 2) s).map
    (fun s2 => (sliceStr s.source s.pos s2.pos, s2))

/-- Loop runner for `Lexer::trim_number` from src/main.rs. -/
def numberLoopF : Nat → Lexer → Option Lexer
  | 0, _ => none
  | fuel + 1, s =>
    if rustIsNumeric s.prev then Main.numberLoopF fuel (Main.next_char s).2
    else some s

/-- `Lexer::trim_number` from src/main.rs. -/
def trim_number (s : Lexer) : Option (Option (List Char) × Lexer) :=
  (Main.numberLoopF (s.chars.length + 2) s).map
    (fun s2 => (sliceStr s.source s.pos s2.pos, s2))

/-- Loop runner for `Lexer::trim_comment` from src/main.rs. -/
def commentLoopF : Nat → Lexer → Option Lexer
  | 0, _ => none
  | fuel + 1, s =>
    if s.prev = '\n' then some s else Main.commentLoopF fuel (Main.next_char s).2

/-- `Lexer::trim_comment` from src/main.rs. -/
def trim_comment (s : Lexer) : Option Lexer :=
  Main.commentLoopF (s.chars.length + 2) s

/-- The token-recognition dispatch of `<Lexer as Iterator>::next` from
src/main.rs, applied to the whitespace-trimmed state (intermediates inlined
as for the src/lib.rs copy). -/
def lexArm (retry : Lexer → PullResult) (s1 : Lexer) : PullResult :=
  if isIdentStart s1.prev then
    match Main.trim_ident s1 with
    | none => .fuelOut
    | some (none, _) => .panicked
    | some (some str, s2) => .tok ⟨.Ident str, Main.position s1⟩ s2
  else if isAsciiDigit s1.prev then
    match Main.trim_number s1 with
    | none => .fuelOut
    | some (none, _) => .panicked
    | some (some str, s2) => .tok ⟨.Num ((parseI32 str).getD 0), Main.position s1⟩ s2
  else if s1.prev = '+' then .tok ⟨.Opr .Plus, Main.position s1⟩ (Main.next_char s1).2
  else if s1.prev = '-' then .tok ⟨.Opr .Minus, Main.position s1⟩ (Main.next_char s1).2
  else if s1.prev = '*' then .tok ⟨.Opr .Multiply, Main.position s1⟩ (Main.next_char s1).2
  else if s1.prev = '/' then
    if ((Main.next_char s1).2).prev = '/' then
      match Main.trim_comment (Main.next_char s1).2 with
      | none => .diverged
      | some s3 => retry s3
    else .tok ⟨.Opr .Divide, Main.position s1⟩ (Main.next_char s1).2
  else if s1.prev = '%' then .tok ⟨.Opr .Modulo, Main.position s1⟩ (Main.next_char s1).2
  else if s1.prev = '=' then .tok ⟨.Opr .Equal, Main.position s1⟩ (Main.next_char s1).2
  else if s1.prev = '>' then
    if ((Main.next_char s1).2).prev = '=' then
      .tok ⟨.Opr .GreaterOrEqual, Main.position s1⟩ (Main.next_char (Main.next_char s1).2).2
    else .tok ⟨.Opr .Greater, Main.position s1⟩ (Main.next_char s1).2
  else if s1.prev = '<' then
    if ((Main.next_char s1).2).prev = '=' then
      .tok ⟨.Opr .LessOrEqual, Main.position s1⟩ (Main.next_char (Main.next_char s1).2).2
    else if ((Main.next_char s1).2).prev = '>' then
      .tok ⟨.Opr .NotEqual, Main.position s1⟩ (Main.next_char (Main.next_char s1).2).2
    else .tok ⟨.Opr .Less, Main.position s1⟩ (Main.next_char s1).2
  else if s1.prev = '(' then .tok ⟨.OpeningBracket, Main.position s1⟩ (Main.next_char s1).2
  else if s1.prev = ')' then .tok ⟨.ClosingBracket, Main.position s1⟩ (Main.next_char s1).2
  else .exhausted s1

/-- One iteration of the dispatch loop of `<Lexer as Iterator>::next` from
src/main.rs. -/
def lexDispatch (retry : Lexer → PullResult) (s : Lexer) : PullResult :=
  match Main.trim_whitespace s with
  | none => .fuelOut
  | some s1 => Main.lexArm retry s1

/-- Fuel-indexed embedding of the whole dispatch loop of
`<Lexer as Iterator>::next` from src/main.rs. -/
def lexNextF : Nat → Lexer → PullResult
  | 0, _ => .fuelOut
  | fuel + 1, s => Main.lexDispatch (Main.lexNextF fuel) s

/-- One pull of the main.rs iterator. -/
def next (s : Lexer) : PullResult :=
  Main.lexNextF (s.chars.length + 2) s

/-- One step of the consumer loop of the `main` function. -/
def lexConsTokens (r : PullResult) (rest : Lexer → List Token) : List Token :=
  match r with
  | .tok t s2 => t :: rest s2
  | _ => []

/-- Drains the main.rs iterator, as the `main` function's consumer loop
does. -/
def lexTokensF : Nat → Lexer → List Token
  | 0, _ => []
  | fuel + 1, s => Main.lexConsTokens (Main.next s) (Main.lexTokensF fuel)

/-- The token sequence the main.rs scanner produces for a source text. -/
def lexAll (source : List Char) : List Token :=
  Main.lexTokensF (source.length + 1) (Main.new source)

end Main



/-! Helper lemmas (shared between claim theorems). -/

/-- When the whitespace loop exits, the remaining lookahead is not
whitespace (the loop condition just failed). -/
theorem wsLoopF_not_ws (f : Nat) :
    ∀ s t : Lexer, wsLoopF f s = some t → rustIsWhitespace t.prev = false := by
  induction f with
  | zero => intro s t h; simp [wsLoopF] at h
  | succ f ih =>
    intro s t h
    by_cases hw : rustIsWhitespace s.prev = true
    · rw [wsLoopF, if_pos hw] at h
      exact ih _ _ h
    · rw [wsLoopF, if_neg hw] at h
      cases h
      exact Bool.eq_false_iff.mpr hw

/-- A state whose lookahead is not whitespace is a fixpoint of
`trim_whitespace`. -/
theorem trim_whitespace_fix (s : Lexer) (h : rustIsWhitespace s.prev = false) :
    s.trim_whitespace = some s := by
  show wsLoopF (s.chars.length + 1 + 1) s = some s
  simp [wsLoopF, h]

/-- An exhausted dispatch result is the whitespace-trimmed state itself, so
its lookahead is not whitespace (`hr` supplies the same fact for results
delivered through the comment retry). -/
theorem lexDispatch_exhausted_not_ws (retry : Lexer → PullResult) (s t : Lexer)
    (hr : ∀ u v : Lexer, retry u = .exhausted v → rustIsWhitespace v.prev = false)
    (h : lexDispatch retry s = .exhausted t) : rustIsWhitespace t.prev = false := by
  delta lexDispatch at h
  split at h
  · exact PullResult.noConfusion h
  · rename_i s1 heq
    delta lexArm at h
    by_cases h1 : isIdentStart s1.prev = true
    · rw [if_pos h1] at h
      revert h
      rcases s1.trim_ident with _ | ⟨_ | str, s2⟩ <;> (intro h; exact PullResult.noConfusion h)
    · rw [if_neg h1] at h
      by_cases h2 : isAsciiDigit s1.prev = true
      · rw [if_pos h2] at h
        revert h
        rcases s1.trim_number with _ | ⟨_ | str, s2⟩ <;> (intro h; exact PullResult.noConfusion h)
      · rw [if_neg h2] at h
        by_cases h3 : s1.prev = '+'
        · rw [if_pos h3] at h; exact PullResult.noConfusion h
        · rw [if_neg h3] at h
          by_cases h4 : s1.prev = '-'
          · rw [if_pos h4] at h; exact PullResult.noConfusion h
          · rw [if_neg h4] at h
            by_cases h5 : s1.prev = '*'
            · rw [if_pos h5] at h; exact PullResult.noConfusion h
            · rw [if_neg h5] at h
              by_cases h6 : s1.prev = '/'
              · rw [if_pos h6] at h
                by_cases h6b : ((s1.next_char).2).prev = '/'
                · rw [if_pos h6b] at h
                  revert h
                  rcases ((s1.next_char).2).trim_comment with _ | s3
                  · intro h; exact PullResult.noConfusion h
                  · intro h; exact hr _ _ h
                · rw [if_neg h6b] at h; exact PullResult.noConfusion h
              · rw [if_neg h6] at h
                by_cases h7 : s1.prev = '%'
                · rw [if_pos h7] at h; exact PullResult.noConfusion h
                · rw [if_neg h7] at h
                  by_cases h8 : s1.prev = '='
                  · rw [if_pos h8] at h; exact PullResult.noConfusion h
                  · rw [if_neg h8] at h
                    by_cases h9 : s1.prev = '>'
                    · rw [if_pos h9] at h
                      by_cases h9b : ((s1.next_char).2).prev = '='
                      · rw [if_pos h9b] at h; exact PullResult.noConfusion h
                      · rw [if_neg h9b] at h; exact PullResult.noConfusion h
                    · rw [if_neg h9] at h
                      by_cases h10 : s1.prev = '<'
                      · rw [if_pos h10] at h
                        by_cases h10b : ((s1.next_char).2).prev = '='
                        · rw [if_pos h10b] at h; exact PullResult.noConfusion h
                        · rw [if_neg h10b] at h
                          by_cases h10c : ((s1.next_char).2).prev = '>'
                          · rw [if_pos h10c] at h; exact PullResult.noConfusion h
                          · rw [if_neg h10c] at h; exact PullResult.noConfusion h
                      · rw [if_neg h10] at h
                        by_cases h11 : s1.prev = '('
                        · rw [if_pos h11] at h; exact PullResult.noConfusion h
                        · rw [if_neg h11] at h
                          by_cases h12 : s1.prev = ')'
                          · rw [if_pos h12] at h; exact PullResult.noConfusion h
                          · rw [if_neg h12] at h
                            cases h
                            exact wsLoopF_not_ws _ _ _ heq

/-- A pull that returns exhaustion returns a state whose lookahead is not
whitespace. -/
theorem lexNextF_exhausted_not_ws (f : Nat) :
    ∀ s t : Lexer, lexNextF f s = .exhausted t → rustIsWhitespace t.prev = false := by
  induction f with
  | zero => intro s t h; exact PullResult.noConfusion h
  | succ f ih =>
    intro s t h
    rw [lexNextF] at h
    exact lexDispatch_exhausted_not_ws _ _ _ ih h

/-- An exhausted dispatch result is a fixpoint of the pull operation: its
lookahead is non-whitespace and matches no dispatch rule, so the retried
pull trims nothing and fails on the same character. -/
theorem lexDispatch_exhausted_fix (retry : Lexer → PullResult) (s t : Lexer)
    (hr : ∀ u v : Lexer, retry u = .exhausted v → Lexer.next v = .exhausted v)
    (h : lexDispatch retry s = .exhausted t) : t.next = .exhausted t := by
  delta lexDispatch at h
  split at h
  · exact PullResult.noConfusion h
  · rename_i s1 heq
    delta lexArm at h
    by_cases h1 : isIdentStart s1.prev = true
    · rw [if_pos h1] at h
      revert h
      rcases s1.trim_ident with _ | ⟨_ | str, s2⟩ <;> (intro h; exact PullResult.noConfusion h)
    · rw [if_neg h1] at h
      by_cases h2 : isAsciiDigit s1.prev = true
      · rw [if_pos h2] at h
        revert h
        rcases s1.trim_number with _ | ⟨_ | str, s2⟩ <;> (intro h; exact PullResult.noConfusion h)
      · rw [if_neg h2] at h
        by_cases h3 : s1.prev = '+'
        · rw [if_pos h3] at h; exact PullResult.noConfusion h
        · rw [if_neg h3] at h
          by_cases h4 : s1.prev = '-'
          · rw [if_pos h4] at h; exact PullResult.noConfusion h
          · rw [if_neg h4] at h
            by_cases h5 : s1.prev = '*'
            · rw [if_pos h5] at h; exact PullResult.noConfusion h
            · rw [if_neg h5] at h
              by_cases h6 : s1.prev = '/'
              · rw [if_pos h6] at h
                by_cases h6b : ((s1.next_char).2).prev = '/'
                · rw [if_pos h6b] at h
                  revert h
                  rcases ((s1.next_char).2).trim_comment with _ | s3
                  · intro h; exact PullResult.noConfusion h
                  · intro h; exact hr _ _ h
                · rw [if_neg h6b] at h; exact PullResult.noConfusion h
              · rw [if_neg h6] at h
                by_cases h7 : s1.prev = '%'
                · rw [if_pos h7] at h; exact PullResult.noConfusion h
                · rw [if_neg h7] at h
                  by_cases h8 : s1.prev = '='
                  · rw [if_pos h8] at h; exact PullResult.noConfusion h
                  · rw [if_neg h8] at h
                    by_cases h9 : s1.prev = '>'
                    · rw [if_pos h9] at h
                      by_cases h9b : ((s1.next_char).2).prev = '='
                      · rw [if_pos h9b] at h; exact PullResult.noConfusion h
                      · rw [if_neg h9b] at h; exact PullResult.noConfusion h
                    · rw [if_neg h9] at h
                      by_cases h10 : s1.prev = '<'
                      · rw [if_pos h10] at h
                        by_cases h10b : ((s1.next_char).2).prev = '='
                        · rw [if_pos h10b] at h; exact PullResult.noConfusion h
                        · rw [if_neg h10b] at h
                          by_cases h10c : ((s1.next_char).2).prev = '>'
                          · rw [if_pos h10c] at h; exact PullResult.noConfusion h
                          · rw [if_neg h10c] at h; exact PullResult.noConfusion h
                      · rw [if_neg h10] at h
                        by_cases h11 : s1.prev = '('
                        · rw [if_pos h11] at h; exact PullResult.noConfusion h
                        · rw [if_neg h11] at h
                          by_cases h12 : s1.prev = ')'
                          · rw [if_pos h12] at h; exact PullResult.noConfusion h
                          · rw [if_neg h12] at h
                            cases h
                            have hws : rustIsWhitespace t.prev = false :=
                              wsLoopF_not_ws _ _ _ heq
                            show lexNextF (t.chars.length + 1 + 1) t = .exhausted t
                            rw [lexNextF]
                            delta lexDispatch
                            rw [trim_whitespace_fix t hws]
                            show lexArm (lexNextF (t.chars.length + 1)) t = .exhausted t
                            delta lexArm
                            rw [if_neg h1, if_neg h2, if_neg h3, if_neg h4, if_neg h5,
                                if_neg h6, if_neg h7, if_neg h8, if_neg h9, if_neg h10,
                                if_neg h11, if_neg h12]

/-- A pull that returns exhaustion returns a state that the next pull maps
to the same exhaustion. -/
theorem lexNextF_exhausted_fix (f : Nat) :
    ∀ s t : Lexer, lexNextF f s = .exhausted t → t.next = .exhausted t := by
  induction f with
  | zero => intro s t h; exact PullResult.noConfusion h
  | succ f ih =>
    intro s t h
    rw [lexNextF] at h
    exact lexDispatch_exhausted_fix _ _ _ ih h

/-- The comment-trimming loop never exits when no line feed occurs at or
after the current lookahead: each iteration either consumes a character
(never reaching a line feed) or turns the lookahead into the NUL sentinel,
which also differs from a line feed, so the loop condition holds at every
fuel level — the source loop runs forever. -/
theorem commentLoopF_no_lf (f : Nat) :
    ∀ s : Lexer, s.prev ≠ '\n' → '\n' ∉ s.chars → commentLoopF f s = none := by
  induction f with
  | zero => intro s _ _; rfl
  | succ f ih =>
    intro s h1 h2
    rw [commentLoopF, if_neg h1]
    rcases hc : s.chars with _ | ⟨c, rest⟩
    · have he : (s.next_char).2 = { s with prev := '\x00' } := by
        simp [Lexer.next_char, hc]
      rw [he]
      apply ih
      · simp
      · simp [hc]
    · have hcm : c ∈ s.chars := by rw [hc]; exact List.mem_cons_self c rest
      have hpr : (s.next_char).2.prev = c := by simp [Lexer.next_char, hc]
      have hch : (s.next_char).2.chars = rest := by simp [Lexer.next_char, hc]
      apply ih
      · rw [hpr]
        intro he
        exact h2 (he ▸ hcm)
      · rw [hch]
        intro hm
        exact h2 (by rw [hc]; exact List.mem_cons_of_mem _ hm)

/-- C1: the claim is refuted by the code.  On the input `//x` — a line
comment not followed by a line feed — the pull does not terminate: after the
dispatch consumes the first slash, the comment-trimming loop (which only
stops on a line feed, never on end of input) runs forever, as the first two
conjuncts show, and the embedded pull reports the divergence. -/
theorem c1_comment_without_linefeed_loops_forever :
    ((Lexer.new (String.toList "//x")).next_char).2 =
      { source := String.toList "//x", prev := '/', chars := ['x'],
        pos := 1, row := 1, col := 2 } ∧
    (∀ fuel : Nat,
      commentLoopF fuel
        { source := String.toList "//x", prev := '/', chars := ['x'],
          pos := 1, row := 1, col := 2 } = none) ∧
    (Lexer.new (String.toList "//x")).next = .diverged := by
  refine ⟨by decide, ?_, by decide⟩
  intro fuel
  exact commentLoopF_no_lf fuel _ (by decide) (by decide)

/-- C2: the claim is refuted by the code, on the spec's own example.
Scanning `foo123 bar` yields `Identifier("ba")` at `(1, 8)` for the second
token, although the bytes actually consumed for it are 7..10, which hold
`bar`: the byte position is not advanced when the final character is
consumed at end of input, so the emitted slice drops the last character of
the final token. -/
theorem c2_last_lexeme_truncated :
    lexAll (String.toList "foo123 bar") =
      [⟨.Ident (String.toList "foo123"), (1, 1)⟩, ⟨.Ident ['b', 'a'], (1, 8)⟩] ∧
    sliceStr (String.toList "foo123 bar") 7 10 = some (String.toList "bar") := by
  decide

/-- C3: the claim is refuted by the code.  `next_char` adds the UTF-8 width
of the newly fetched lookahead, not of the consumed character (and adds
nothing at end of input).  Consuming the two-byte U+00A0 while fetching the
one-byte `a` moves the byte offset from 0 to 1, which is not a scalar-value
boundary of the buffer; and consuming the final `a` of a one-character
buffer leaves the offset at 0 instead of advancing it by one. -/
theorem c3_advance_width_and_boundary_violated :
    ((Lexer.new [Char.ofNat 0xA0, 'a']).prev = Char.ofNat 0xA0 ∧
     (Char.ofNat 0xA0).utf8Size = 2 ∧
     ((Lexer.new [Char.ofNat 0xA0, 'a']).next_char).2.pos = 1 ∧
     isUtf8Boundary [Char.ofNat 0xA0, 'a'] 1 = false) ∧
    ((Lexer.new ['a']).prev = 'a' ∧ ('a' : Char).utf8Size = 1 ∧
     ((Lexer.new ['a']).next_char).2.pos = 0) := by
  decide

/-- C4: the claim is refuted by the code on its own example.  Scanning
`9999999999` yields `Number(999999999)`: at end of input the slice omits
the final digit, and the remaining nine-digit run fits a 32-bit signed
integer, so the zero fallback is never taken (the full ten-digit run would
indeed fail to parse, and the fallback does fire when the run is not at end
of input, as the trailing-space variant shows). -/
theorem c4_overflowing_literal_truncated_not_zero :
    lexAll (String.toList "9999999999") = [⟨.Num 999999999, (1, 1)⟩] ∧
    parseI32 (String.toList "9999999999") = none ∧
    lexAll (String.toList "9999999999 ") = [⟨.Num 0, (1, 1)⟩] := by
  decide

/-- C5: the claim is refuted by the code.  Scanning `// comment`, a line
feed, then `42` yields exactly one token at position `(2, 1)` as claimed,
but its value is `Number(4)`, not `Number(42)`: the byte position is not
advanced when the final `2` is consumed at end of input, so the sliced
digit run is just `4`. -/
theorem c5_comment_then_42_yields_4 :
    lexAll (String.toList "// comment\n42") = [⟨.Num 4, (2, 1)⟩] := by
  decide

/-- C6: the claim is refuted by the code.  The row/column reset fires when
the newly fetched lookahead is a line feed, not when the consumed character
is one: advancing over `a` in `a\n` (consuming `a`, fetching the line feed)
resets the column to 0 and increments the row, while advancing over the
initial line feed of `\na` (consuming the line feed, fetching `a`) leaves
the row at 1 and moves the column to 2. -/
theorem c6_linefeed_reset_tied_to_fetched_lookahead :
    ((Lexer.new (String.toList "a\n")).prev = 'a' ∧
     ((Lexer.new (String.toList "a\n")).next_char).2.row = 2 ∧
     ((Lexer.new (String.toList "a\n")).next_char).2.col = 0) ∧
    ((Lexer.new (String.toList "\na")).prev = '\n' ∧
     ((Lexer.new (String.toList "\na")).next_char).2.row = 1 ∧
     ((Lexer.new (String.toList "\na")).next_char).2.col = 2) := by
  decide

/-- C7: after whitespace trimming, a `>` lookahead consumes itself and then
a following `=` (emitting GreaterOrEqual) or nothing more (emitting
Greater); a `<` lookahead likewise consumes a following `=` (LessOrEqual)
or `>` (NotEqual, one two-character token) or nothing more (Less); and `=`
always emits the single-character Equal.  Each token is stamped with the
position recorded after trimming. -/
theorem c7_relational_operator_dispatch (s s1 : Lexer)
    (h : s.trim_whitespace = some s1) :
    (s1.prev = '>' →
      s.next =
        if ((s1.next_char).2).prev = '=' then
          .tok ⟨.Opr .GreaterOrEqual, s1.position⟩ (((s1.next_char).2).next_char).2
        else .tok ⟨.Opr .Greater, s1.position⟩ (s1.next_char).2) ∧
    (s1.prev = '<' →
      s.next =
        if ((s1.next_char).2).prev = '=' then
          .tok ⟨.Opr .LessOrEqual, s1.position⟩ (((s1.next_char).2).next_char).2
        else if ((s1.next_char).2).prev = '>' then
          .tok ⟨.Opr .NotEqual, s1.position⟩ (((s1.next_char).2).next_char).2
        else .tok ⟨.Opr .Less, s1.position⟩ (s1.next_char).2) ∧
    (s1.prev = '=' → s.next = .tok ⟨.Opr .Equal, s1.position⟩ (s1.next_char).2) := by
  have hnext : s.next = lexArm (lexNextF (s.chars.length + 1)) s1 := by
    show lexNextF (s.chars.length + 1 + 1) s = _
    rw [lexNextF]
    delta lexDispatch
    rw [h]
  refine ⟨?_, ?_, ?_⟩ <;> intro hp <;> rw [hnext] <;> delta lexArm <;> rw [hp]
  · rw [if_neg (by decide : ¬(isIdentStart '>' = true)),
        if_neg (by decide : ¬(isAsciiDigit '>' = true)),
        if_neg (by decide : ('>' : Char) ≠ '+'),
        if_neg (by decide : ('>' : Char) ≠ '-'),
        if_neg (by decide : ('>' : Char) ≠ '*'),
        if_neg (by decide : ('>' : Char) ≠ '/'),
        if_neg (by decide : ('>' : Char) ≠ '%'),
        if_neg (by decide : ('>' : Char) ≠ '='),
        if_pos (rfl : ('>' : Char) = '>')]
  · rw [if_neg (by decide : ¬(isIdentStart '<' = true)),
        if_neg (by decide : ¬(isAsciiDigit '<' = true)),
        if_neg (by decide : ('<' : Char) ≠ '+'),
        if_neg (by decide : ('<' : Char) ≠ '-'),
        if_neg (by decide : ('<' : Char) ≠ '*'),
        if_neg (by decide : ('<' : Char) ≠ '/'),
        if_neg (by decide : ('<' : Char) ≠ '%'),
        if_neg (by decide : ('<' : Char) ≠ '='),
        if_neg (by decide : ('<' : Char) ≠ '>'),
        if_pos (rfl : ('<' : Char) = '<')]
  · rw [if_neg (by decide : ¬(isIdentStart '=' = true)),
        if_neg (by decide : ¬(isAsciiDigit '=' = true)),
        if_neg (by decide : ('=' : Char) ≠ '+'),
        if_neg (by decide : ('=' : Char) ≠ '-'),
        if_neg (by decide : ('=' : Char) ≠ '*'),
        if_neg (by decide : ('=' : Char) ≠ '/'),
        if_neg (by decide : ('=' : Char) ≠ '%'),
        if_pos (rfl : ('=' : Char) = '=')]

/-- C7 witness: the theorem applied to the concrete input `>=a` produces
the two-character GreaterOrEqual token at `(1, 1)`. -/
theorem c7_witness :
    (Lexer.new (String.toList ">=a")).next =
      .tok ⟨.Opr .GreaterOrEqual, (1, 1)⟩
        (((Lexer.new (String.toList ">=a")).next_char).2.next_char).2 := by
  have h := (c7_relational_operator_dispatch (Lexer.new (String.toList ">=a"))
      (Lexer.new (String.toList ">=a")) (by decide)).1 (by decide)
  rw [h]
  decide

/-- C8: exhaustion is terminal.  Whenever a pull yields exhaustion — on the
NUL sentinel or on any other unrecognized character — the returned state is
mapped by the next pull to the same exhaustion, so by iterating, every
further pull also yields exhaustion. -/
theorem c8_exhaustion_is_terminal (s t : Lexer) (h : s.next = .exhausted t) :
    t.next = .exhausted t :=
  lexNextF_exhausted_fix (s.chars.length + 2) s t h

/-- C8 witness: on the input `@` the first pull is exhausted at the initial
state, and the theorem shows the retried pull is exhausted again. -/
theorem c8_witness :
    (Lexer.new (String.toList "@")).next = .exhausted (Lexer.new (String.toList "@")) :=
  c8_exhaustion_is_terminal (Lexer.new (String.toList "@"))
    (Lexer.new (String.toList "@")) (by decide)

/-- The two `next_char` transcriptions agree pointwise. -/
theorem main_next_char_eq (s : Lexer) : Main.next_char s = Lexer.next_char s := by
  delta Main.next_char Lexer.next_char
  rcases s.chars with _ | ⟨c, rest⟩ <;> rfl

/-- The two `pos()` transcriptions agree pointwise. -/
theorem main_position_eq (s : Lexer) : Main.position s = Lexer.position s := rfl

/-- The two whitespace loops agree at every fuel. -/
theorem main_wsLoopF_eq : ∀ (f : Nat) (s : Lexer), Main.wsLoopF f s = wsLoopF f s := by
  intro f
  induction f with
  | zero => intro s; rfl
  | succ f ih =>
    intro s
    rw [Main.wsLoopF, wsLoopF, main_next_char_eq, ih]

/-- The two `trim_whitespace` transcriptions agree pointwise. -/
theorem main_trim_whitespace_eq (s : Lexer) :
    Main.trim_whitespace s = s.trim_whitespace := by
  delta Main.trim_whitespace Lexer.trim_whitespace
  exact main_wsLoopF_eq _ _

/-- The two identifier loops agree at every fuel. -/
theorem main_identLoopF_eq : ∀ (f : Nat) (s : Lexer), Main.identLoopF f s = identLoopF f s := by
  intro f
  induction f with
  | zero => intro s; rfl
  | succ f ih =>
    intro s
    rw [Main.identLoopF, identLoopF, main_next_char_eq, ih]

/-- The two `trim_ident` transcriptions agree pointwise. -/
theorem main_trim_ident_eq (s : Lexer) : Main.trim_ident s = s.trim_ident := by
  delta Main.trim_ident Lexer.trim_ident
  rw [main_identLoopF_eq]

/-- The two number loops agree at every fuel. -/
theorem main_numberLoopF_eq : ∀ (f : Nat) (s : Lexer), Main.numberLoopF f s = numberLoopF f s := by
  intro f
  induction f with
  | zero => intro s; rfl
  | succ f ih =>
    intro s
    rw [Main.numberLoopF, numberLoopF, main_next_char_eq, ih]

/-- The two `trim_number` transcriptions agree pointwise. -/
theorem main_trim_number_eq (s : Lexer) : Main.trim_number s = s.trim_number := by
  delta Main.trim_number Lexer.trim_number
  rw [main_numberLoopF_eq]

/-- The two comment loops agree at every fuel. -/
theorem main_commentLoopF_eq : ∀ (f : Nat) (s : Lexer), Main.commentLoopF f s = commentLoopF f s := by
  intro f
  induction f with
  | zero => intro s; rfl
  | succ f ih =>
    intro s
    rw [Main.commentLoopF, commentLoopF, main_next_char_eq, ih]

/-- The two `trim_comment` transcriptions agree pointwise. -/
theorem main_trim_comment_eq (s : Lexer) : Main.trim_comment s = s.trim_comment := by
  delta Main.trim_comment Lexer.trim_comment
  exact main_commentLoopF_eq _ _

/-- The two token-recognition dispatches agree for every retry continuation. -/
theorem main_lexArm_eq (retry : Lexer → PullResult) (s1 : Lexer) :
    Main.lexArm retry s1 = lexArm retry s1 := by
  delta Main.lexArm lexArm
  simp only [main_next_char_eq, main_position_eq, main_trim_ident_eq,
    main_trim_number_eq, main_trim_comment_eq]

/-- The two pull loops agree at every fuel. -/
theorem main_lexNextF_eq : ∀ (f : Nat) (s : Lexer), Main.lexNextF f s = lexNextF f s := by
  intro f
  induction f with
  | zero => intro s; rfl
  | succ f ih =>
    intro s
    rw [Main.lexNextF, lexNextF]
    delta Main.lexDispatch lexDispatch
    rw [main_trim_whitespace_eq]
    rcases s.trim_whitespace with _ | s1
    · rfl
    · show Main.lexArm (Main.lexNextF f) s1 = lexArm (lexNextF f) s1
      rw [main_lexArm_eq, funext ih]

/-- The two pull operations agree pointwise. -/
theorem main_next_eq (s : Lexer) : Main.next s = s.next := by
  delta Main.next Lexer.next
  exact main_lexNextF_eq _ _

/-- The two consumer-loop steps agree pointwise. -/
theorem main_lexConsTokens_eq (r : PullResult) (rest : Lexer → List Token) :
    Main.lexConsTokens r rest = lexConsTokens r rest := by
  cases r <;> rfl

/-- The two draining loops agree at every fuel. -/
theorem main_lexTokensF_eq : ∀ (f : Nat) (s : Lexer), Main.lexTokensF f s = lexTokensF f s := by
  intro f
  induction f with
  | zero => intro s; rfl
  | succ f ih =>
    intro s
    rewrite [Main.lexTokensF, lexTokensF, main_next_eq, funext ih]
    exact main_lexConsTokens_eq _ _

/-- C9: the scanner in src/lib.rs and the scanner in src/main.rs produce
identical token sequences — kinds, payloads and positions — on every input:
the two transcriptions agree function by function. -/
theorem c9_lib_and_main_scanners_agree :
    ∀ source : List Char, Main.lexAll source = lexAll source := by
  intro source
  delta Main.lexAll lexAll
  show Main.lexTokensF (source.length + 1) (Main.new source) =
    lexTokensF (source.length + 1) (Lexer.new source)
  rw [main_lexTokensF_eq]
  rfl

/-- C10 counterexample: on the input `//x`, line feed, `@`, the failed pull
(no token: `@` is unrecognized) leaves a state that differs from the merely
whitespace-trimmed state — the comment was consumed too — refuting the
claim that the state is unchanged beyond leading whitespace trimming. -/
theorem c10_counterexample_comment_consumed :
    (Lexer.new (String.toList "//x\n@")).next =
      .exhausted { source := String.toList "//x\n@", prev := '@', chars := [],
                   pos := 4, row := 2, col := 1 } ∧
    (Lexer.new (String.toList "//x\n@")).trim_whitespace =
      some (Lexer.new (String.toList "//x\n@")) ∧
    Lexer.new (String.toList "//x\n@") ≠
      { source := String.toList "//x\n@", prev := '@', chars := [],
        pos := 4, row := 2, col := 1 } := by
  decide

/-- C10 (amended): if a pull returns no token and the post-pull lookahead
is an unrecognized character other than the NUL sentinel, that character
was not consumed — it is still the lookahead, the state is a fixpoint of
whitespace trimming and of further pulls (the pull changed the state only
by the whitespace and comments it trimmed), and `is_over()` still returns
false even though no further token will ever be produced. -/
theorem c10_unrecognized_char_not_consumed (s t : Lexer) (h : s.next = .exhausted t)
    (hnz : t.prev ≠ '\x00') :
    t.is_over = false ∧ t.trim_whitespace = some t ∧ t.next = .exhausted t := by
  have hws : rustIsWhitespace t.prev = false :=
    lexNextF_exhausted_not_ws (s.chars.length + 2) s t h
  refine ⟨?_, trim_whitespace_fix t hws,
    lexNextF_exhausted_fix (s.chars.length + 2) s t h⟩
  simp only [Lexer.is_over, decide_eq_false_iff_not]
  exact hnz

/-- C10 witness: the theorem applied to the concrete input `!`, whose only
character is unrecognized. -/
theorem c10_witness :
    (Lexer.new (String.toList "!")).is_over = false ∧
    (Lexer.new (String.toList "!")).trim_whitespace = some (Lexer.new (String.toList "!")) ∧
    (Lexer.new (String.toList "!")).next = .exhausted (Lexer.new (String.toList "!")) :=
  c10_unrecognized_char_not_consumed (Lexer.new (String.toList "!"))
    (Lexer.new (String.toList "!")) (by decide) (by decide)
